import Mathlib

/-!
Shallow embedding of `torch/csrc/Exceptions.h` (boundary protocol between
native C++ code and an embedded Python interpreter).

Two abstraction levels of the interpreter are used, matching how the source
interacts with it:

* a reference-counted level (`PyState`) for the `python_error` snapshot type,
  whose operations (`persist`, `restore`, move, destruction) manipulate
  refcounts via `Py_XINCREF` / `Py_XDECREF` / `PyErr_Fetch` / `PyErr_Restore`;
* a macro level (`InterpState`) for the catch cascades `CATCH_TH_ERRORS` and
  `END_HANDLE_TH_ERRORS_PYBIND`, where the error slot is observed through
  `PyErr_SetString` / `PyErr_Clear` as a `(type, message)` pair.

`AutoGIL` critical sections are elided: the global interpreter lock is an
external capability of the interpreter runtime and the embedding is
call-stack-synchronous, so every modelled operation is a single atomic step.
-/

/-! ## Reference-counted interpreter state and the `python_error` snapshot -/

/-- Interpreter runtime state at the reference-count level: a refcount for
every object id, plus the current-exception triple (each component a possibly
null `PyObject*`, modelled as `Option Nat`). -/
structure PyState where
  refcnt : Nat → Nat
  curexc_type : Option Nat
  curexc_value : Option Nat
  curexc_traceback : Option Nat

/-- `Py_XINCREF`: increment the refcount of a possibly null handle. -/
def Py_XINCREF (s : PyState) (p : Option Nat) : PyState :=
  match p with
  | none => s
  | some o => { s with refcnt := fun i => if i = o then s.refcnt i + 1 else s.refcnt i }

/-- `Py_XDECREF`: decrement the refcount of a possibly null handle. -/
def Py_XDECREF (s : PyState) (p : Option Nat) : PyState :=
  match p with
  | none => s
  | some o => { s with refcnt := fun i => if i = o then s.refcnt i - 1 else s.refcnt i }

/-- Modelled from the spec: `fetch_current_error() -> (type, value, traceback)`
(CPython `PyErr_Fetch`, an external interpreter capability whose body is not in
this repository). It hands the three owned references to the caller and clears
the interpreter's error slot as a side effect; no refcount changes, ownership
moves. -/
def PyErr_Fetch (s : PyState) :
    PyState × Option Nat × Option Nat × Option Nat :=
  ({ s with curexc_type := none, curexc_value := none, curexc_traceback := none },
   s.curexc_type, s.curexc_value, s.curexc_traceback)

/-- Modelled from the spec: `install_error(type, value, traceback)` (CPython
`PyErr_Restore`, an external interpreter capability whose body is not in this
repository). It steals the three references: the slot now owns them, and no
refcount is touched by the install itself. -/
def PyErr_Restore (s : PyState) (t v tb : Option Nat) : PyState :=
  { s with curexc_type := t, curexc_value := v, curexc_traceback := tb }

/-- The `python_error` exception object: an owned snapshot of the
interpreter's `(type, value, traceback)` triple (struct `python_error` in
`Exceptions.h`). -/
structure python_error where
  type : Option Nat
  value : Option Nat
  traceback : Option Nat
deriving DecidableEq, Repr

/-- The default-constructed `python_error`: all three handles null. -/
def python_error.empty : python_error := ⟨none, none, none⟩

/-- How many of the instance's three handles point at object `o` (used to
state refcount effects precisely even when handles alias). -/
def python_error.refsTo (e : python_error) (o : Nat) : Nat :=
  (if e.type = some o then 1 else 0) + (if e.value = some o then 1 else 0) +
    (if e.traceback = some o then 1 else 0)

/-- `python_error::persist`: `if (type) return;` then decref all three handles
and `PyErr_Fetch` the interpreter's triple into the instance. Returns the
updated interpreter state and the updated instance. -/
def python_error.persist (s : PyState) (e : python_error) :
    PyState × python_error :=
  if e.type.isSome then (s, e)
  else
    let s1 := Py_XDECREF (Py_XDECREF (Py_XDECREF s e.type) e.value) e.traceback
    let (s2, t, v, tb) := PyErr_Fetch s1
    (s2, ⟨t, v, tb⟩)

/-- `python_error::restore`: `if (!type) return;` then incref all three
handles and install them via the stealing `PyErr_Restore`. The instance itself
is only read, never written (the C++ method leaves `this` untouched). -/
def python_error.restore (s : PyState) (e : python_error) : PyState :=
  if e.type.isSome then
    let s1 := Py_XINCREF (Py_XINCREF (Py_XINCREF s e.type) e.value) e.traceback
    PyErr_Restore s1 e.type e.value e.traceback
  else s

/-- The move constructor `python_error(python_error&&)`: pointer transfer,
source zeroed; it takes no interpreter state because it touches no refcount
and acquires no lock. Returns `(destination, source after move)`. -/
def python_error.move (e : python_error) : python_error × python_error :=
  (⟨e.type, e.value, e.traceback⟩, ⟨none, none, none⟩)

/-- The destructor `~python_error`: if any handle is non-null, decref all
three. -/
def python_error.destruct (s : PyState) (e : python_error) : PyState :=
  if e.type.isSome || e.value.isSome || e.traceback.isSome then
    Py_XDECREF (Py_XDECREF (Py_XDECREF s e.type) e.value) e.traceback
  else s

/-! ## Macro-level interpreter state and the native exception taxonomy -/

/-- Python exception type selectors reachable from this header. -/
inductive PyExcType where
  | PyExc_IndexError
  | PyExc_TypeError
  | PyExc_ValueError
  | PyExc_RuntimeError
  | PyExc_Other (n : Nat)
deriving DecidableEq, Repr

/-- Macro-level interpreter state: the error slot as observed through
`PyErr_SetString` / `PyErr_Clear`, i.e. an optional `(type, message)` pair. -/
structure InterpState where
  err : Option (PyExcType × String)
deriving DecidableEq, Repr

/-- `PyErr_SetString(type, msg)`: install `(type, msg)` as the current
error, replacing whatever was there. -/
def PyErr_SetString (s : InterpState) (t : PyExcType) (m : String) : InterpState :=
  { s with err := some (t, m) }

/-- `PyErr_Clear()`: empty the error slot. -/
def PyErr_Clear (_ : InterpState) : InterpState :=
  { err := none }

/-- Modelled from the spec: `c10::Error` (defined in `c10/util/Exception.h`,
not part of this snapshot) carries a free-form message plus an optional
structured backtrace; `what()` renders both, `what_without_backtrace()` strips
the backtrace suffix. -/
structure C10Error where
  msg : String
  backtrace : String
deriving DecidableEq, Repr

/-- `c10::Error::what_without_backtrace()`: the backtrace-free rendering. -/
def C10Error.what_without_backtrace (e : C10Error) : String := e.msg

/-- `c10::Error::what()`: message followed by the backtrace. -/
def C10Error.what (e : C10Error) : String := e.msg ++ e.backtrace

/-- A `torch::PyTorchError` subtype instance: its declared Python type
(`python_type()`) and its message (`what()` returns `msg`). -/
structure TorchPyErr where
  ptype : PyExcType
  msg : String
deriving DecidableEq, Repr

/-- The three `PyTorchError` subtypes declared in `Exceptions.h`:
`torch::IndexError`, `torch::TypeError`, `torch::ValueError`. -/
inductive TorchErrorKind where
  | torchIndexError
  | torchTypeError
  | torchValueError
deriving DecidableEq, Repr

/-- The `python_type()` override of each declared subtype. -/
def TorchErrorKind.python_type : TorchErrorKind → PyExcType
  | .torchIndexError => .PyExc_IndexError
  | .torchTypeError => .PyExc_TypeError
  | .torchValueError => .PyExc_ValueError

/-- A declared subtype with message `m`, viewed as the `PyTorchError` instance
the catch clause sees. -/
def TorchErrorKind.toErr (k : TorchErrorKind) (m : String) : TorchPyErr :=
  ⟨k.python_type, m⟩

/-- The C++ exceptions that can reach the catch cascades of `Exceptions.h`,
tagged by dynamic type. `jit_exception` carries an opaque payload so identity
preservation across the boundary is statable. -/
inductive CppException where
  | python_error_exc
  | pyb_error_already_set (stored : Option (PyExcType × String)) (m : String)
  | pyb_builtin_exception (stored : PyExcType × String) (m : String)
  | jit_exception (payload : Nat) (m : String)
  | c10_index (e : C10Error)
  | c10_error (e : C10Error)
  | torch_py (e : TorchPyErr)
  | std_exc (m : String)
deriving DecidableEq, Repr

/-- `what()` for each dynamic type (every type in the taxonomy derives from
`std::exception`; `python_error` does not override `what()`). -/
def CppException.what : CppException → String
  | .python_error_exc => "std::exception"
  | .pyb_error_already_set _ m => m
  | .pyb_builtin_exception _ m => m
  | .jit_exception _ m => m
  | .c10_index e => e.what
  | .c10_error e => e.what
  | .torch_py e => e.msg
  | .std_exc m => m

/-- The backtrace-free rendering where one exists (`c10::Error` and its
`IndexError` subtype); elsewhere it coincides with `what()`. -/
def CppException.what_without_backtrace : CppException → String
  | .c10_index e => e.what_without_backtrace
  | .c10_error e => e.what_without_backtrace
  | e => e.what

/-- The `python_type()` selector of a caught `torch::PyTorchError` (the
catch clause only ever applies it to `torch_py`). -/
def CppException.python_type : CppException → PyExcType
  | .torch_py e => e.ptype
  | _ => .PyExc_RuntimeError

/-- Modelled from the spec: `torch::processErrorMsg` is declared in
`Exceptions.h` but defined in `Exceptions.cpp`, which is not part of this
snapshot; the spec describes message rendering as passing the rendered
message through unchanged (the scenario in §8 expects the exact message). -/
def processErrorMsg (s : String) : String := s

/-! ## The `CATCH_TH_ERRORS` cascade -/

/-- The static types of the catch clauses appearing in `Exceptions.h`. -/
inductive CatchType where
  | ctPythonError
  | ctC10IndexError
  | ctC10Error
  | ctPyTorchError
  | ctStdException
deriving DecidableEq, Repr

/-- C++ catch matching: a clause of static type `ct` catches a thrown
exception of dynamic type `e` iff `e`'s type is `ct` or derives from it.
Inheritance facts from the sources: `c10::IndexError : c10::Error`,
`c10::Error : std::exception`, `torch::PyTorchError : std::exception`,
`python_error : std::exception`, and the pybind/JIT exceptions derive from
`std::runtime_error : std::exception`. -/
def catchMatches : CatchType → CppException → Bool
  | .ctPythonError, .python_error_exc => true
  | .ctPythonError, _ => false
  | .ctC10IndexError, .c10_index _ => true
  | .ctC10IndexError, _ => false
  | .ctC10Error, .c10_index _ => true
  | .ctC10Error, .c10_error _ => true
  | .ctC10Error, _ => false
  | .ctPyTorchError, .torch_py _ => true
  | .ctPyTorchError, _ => false
  | .ctStdException, _ => true

/-- The effect of each `CATCH_TH_ERRORS` clause body on the interpreter's
error slot (the trailing `retstmnt` is handled by the caller of the cascade):
the `python_error` clause writes nothing; the others translate and install. -/
def clauseAction : CatchType → CppException → InterpState → InterpState
  | .ctPythonError, _, s => s
  | .ctC10IndexError, e, s =>
      PyErr_SetString s .PyExc_IndexError (processErrorMsg e.what_without_backtrace)
  | .ctC10Error, e, s =>
      PyErr_SetString s .PyExc_RuntimeError (processErrorMsg e.what_without_backtrace)
  | .ctPyTorchError, e, s =>
      PyErr_SetString s e.python_type (processErrorMsg e.what)
  | .ctStdException, e, s =>
      PyErr_SetString s .PyExc_RuntimeError (processErrorMsg e.what)

/-- The clause order as written in `CATCH_TH_ERRORS`. -/
def codeOrder : List CatchType :=
  [.ctPythonError, .ctC10IndexError, .ctC10Error, .ctPyTorchError, .ctStdException]

/-- The selector-table order of spec §4.3: AlreadyForeignKind, IndexKind,
declared `PyTorchError` subtype, then the generic catch-all clauses. This
definition follows the spec's words, to be compared with `codeOrder`. -/
def specOrder : List CatchType :=
  [.ctPythonError, .ctC10IndexError, .ctPyTorchError, .ctC10Error, .ctStdException]

/-- The clause that fires for a thrown exception: the first matching clause
in the given order (C++ catch semantics). -/
def firstMatch (order : List CatchType) (e : CppException) : Option CatchType :=
  order.find? (fun ct => catchMatches ct e)

/-- Running the cascade: apply the first matching clause's body; if no clause
matches, the exception escapes and the state is untouched. -/
def runCatch (order : List CatchType) (e : CppException) (s : InterpState) :
    InterpState :=
  match firstMatch order e with
  | some ct => clauseAction ct e s
  | none => s

/-! ## The `END_HANDLE_TH_ERRORS_PYBIND` two-layer protocol -/

/-- What a boundary call wrapped by `END_HANDLE_TH_ERRORS_PYBIND` does after
its catch layers run: rethrow the original exception object, or throw a fresh
`py::error_already_set()`. -/
inductive PybindOutcome where
  | rethrown (e : CppException)
  | raisedErrorAlreadySet
deriving DecidableEq, Repr

/-- The inner catch layer of `END_HANDLE_TH_ERRORS_PYBIND`: every clause
updates the error slot so the warning-buffer destructor (which runs next,
during the unwind) can detect an active error, then rethrows the same
exception. `py::error_already_set::restore()` re-installs its stored error;
`py::builtin_exception::set_error()` sets its corresponding Python error; the
`JITException` clause installs the temporary `RuntimeError "JITException"`
sentinel; the remaining clauses are `CATCH_TH_ERRORS(throw)`. -/
def pybindInner (s : InterpState) (e : CppException) : InterpState :=
  match e with
  | .pyb_error_already_set stored _ => { s with err := stored }
  | .pyb_builtin_exception stored _ => { s with err := some stored }
  | .jit_exception _ _ => PyErr_SetString s .PyExc_RuntimeError "JITException"
  | _ => runCatch codeOrder e s

/-- The outer catch layer of `END_HANDLE_TH_ERRORS_PYBIND`:
`py::error_already_set` and `py::builtin_exception` are repacked as a fresh
`py::error_already_set()`; the `JITException` clause clears the temporary
sentinel with `PyErr_Clear()` and rethrows the original object; the remaining
clauses are `CATCH_TH_ERRORS(throw py::error_already_set())`. -/
def pybindOuter (s : InterpState) (e : CppException) :
    InterpState × PybindOutcome :=
  match e with
  | .pyb_error_already_set _ _ => (s, .raisedErrorAlreadySet)
  | .pyb_builtin_exception _ _ => (s, .raisedErrorAlreadySet)
  | .jit_exception p m => (PyErr_Clear s, .rethrown (.jit_exception p m))
  | _ => (runCatch codeOrder e s, .raisedErrorAlreadySet)

/-- The whole unwind path of `END_HANDLE_TH_ERRORS_PYBIND` for a thrown
exception: inner layer, then (the warning-buffer destructor observes the
intermediate state), then outer layer. Returns the state visible to the
warning-reconciliation code, the final state, and the outcome. -/
def pybindBoundary (s : InterpState) (e : CppException) :
    InterpState × InterpState × PybindOutcome :=
  let s1 := pybindInner s e
  let (s2, out) := pybindOuter s1 e
  (s1, s2, out)

/-! ## The `EnforceWarningBuffer` destructor (spec-modelled) -/

/-- A buffered native warning record. -/
structure WarningRec where
  msg : String
deriving DecidableEq, Repr

/-- Replaying the buffered queue as foreign (Python) warning calls, in FIFO
order; `raises w` is the foreign error the replay of `w` raises, if any.
Every warning is issued as a foreign call; the first raised error becomes the
result. Returns (warnings issued as foreign calls, first raised error). -/
def replayForeign (raises : WarningRec → Option (PyExcType × String)) :
    List WarningRec → List WarningRec × Option (PyExcType × String)
  | [] => ([], none)
  | w :: ws =>
      let rest := replayForeign raises ws
      (w :: rest.1, (raises w).orElse (fun _ => rest.2))

/-- The observable effects of one run of the destructor. -/
structure EWBDestructResult where
  restoredHandler : Nat
  foreignCalls : List WarningRec
  nativeWarnings : List WarningRec
  raisedError : Option (PyExcType × String)
deriving DecidableEq, Repr

/-- Modelled from the spec: the body of `torch::EnforceWarningBuffer`'s
destructor is defined in `Exceptions.cpp`, which is not part of this snapshot;
only its declaration (`noexcept(false)`) and NOTE [ Conversion Cpp Python
Warning ] are. Per the NOTE and spec §4.2: first restore the previously
active warning handler; then, if an error is already active (`errorActive`,
the active-unwind case), attempt no foreign calls and replay every buffered
warning as a native (cpp) structured warning; otherwise acquire the GIL and
replay every buffered warning as a foreign warning call in original order,
the first raised foreign error becoming the call's observable result. -/
def ewbDestruct (prevHandler : Nat) (buffered : List WarningRec)
    (errorActive : Bool)
    (raises : WarningRec → Option (PyExcType × String)) : EWBDestructResult :=
  if errorActive then
    { restoredHandler := prevHandler
      foreignCalls := []
      nativeWarnings := buffered
      raisedError := none }
  else
    let r := replayForeign raises buffered
    { restoredHandler := prevHandler
      foreignCalls := r.1
      nativeWarnings := []
      raisedError := r.2 }

/-! ## Helper lemmas -/

theorem Py_XDECREF_refcnt (s : PyState) (p : Option Nat) (o : Nat) :
    (Py_XDECREF s p).refcnt o = s.refcnt o - (if p = some o then 1 else 0) := by
  rcases p with _ | q
  · simp [Py_XDECREF]
  · by_cases h : q = o
    · subst h; simp [Py_XDECREF]
    · simp [Py_XDECREF, h, Ne.symm h]

theorem Py_XINCREF_refcnt (s : PyState) (p : Option Nat) (o : Nat) :
    (Py_XINCREF s p).refcnt o = s.refcnt o + (if p = some o then 1 else 0) := by
  rcases p with _ | q
  · simp [Py_XINCREF]
  · by_cases h : q = o
    · subst h; simp [Py_XINCREF]
    · simp [Py_XINCREF, h, Ne.symm h]

theorem Py_XDECREF_curexc_type (s : PyState) (p : Option Nat) :
    (Py_XDECREF s p).curexc_type = s.curexc_type := by
  rcases p with _ | q <;> rfl

theorem Py_XDECREF_curexc_value (s : PyState) (p : Option Nat) :
    (Py_XDECREF s p).curexc_value = s.curexc_value := by
  rcases p with _ | q <;> rfl

theorem Py_XDECREF_curexc_traceback (s : PyState) (p : Option Nat) :
    (Py_XDECREF s p).curexc_traceback = s.curexc_traceback := by
  rcases p with _ | q <;> rfl

theorem replayForeign_calls (raises : WarningRec → Option (PyExcType × String))
    (l : List WarningRec) : (replayForeign raises l).1 = l := by
  induction l with
  | nil => rfl
  | cons w ws ih => simp [replayForeign, ih]

theorem replayForeign_err (raises : WarningRec → Option (PyExcType × String))
    (l : List WarningRec) :
    (replayForeign raises l).2 = (l.filterMap raises).head? := by
  induction l with
  | nil => rfl
  | cons w ws ih =>
    cases h : raises w <;>
      simp [replayForeign, List.filterMap_cons, h, ih, Option.orElse]

/-! ## Claim theorems -/

/-- C1: when the AlreadyForeignKind signal (`python_error`) is caught by
`CATCH_TH_ERRORS`, its clause fires first — taking priority over the later
`std::exception` clause that also matches it — and writes nothing, so a
pre-existing foreign error in the interpreter's slot remains the installed
error and the caught exception's payload is discarded. -/
theorem C1_already_foreign_preserved (s : InterpState) (fe : PyExcType × String)
    (h : s.err = some fe) :
    firstMatch codeOrder .python_error_exc = some .ctPythonError ∧
    runCatch codeOrder .python_error_exc s = s ∧
    (runCatch codeOrder .python_error_exc s).err = some fe :=
  ⟨rfl, rfl, h⟩

/-- Witness for C1 at a concretely populated error slot. -/
theorem C1_already_foreign_preserved_witness :
    firstMatch codeOrder .python_error_exc = some .ctPythonError ∧
    runCatch codeOrder .python_error_exc ⟨some (.PyExc_ValueError, "pre")⟩ =
      ⟨some (.PyExc_ValueError, "pre")⟩ ∧
    (runCatch codeOrder .python_error_exc ⟨some (.PyExc_ValueError, "pre")⟩).err =
      some (.PyExc_ValueError, "pre") :=
  C1_already_foreign_preserved ⟨some (.PyExc_ValueError, "pre")⟩
    (.PyExc_ValueError, "pre") rfl

/-- C2: for every thrown exception, the catch cascade as ordered in the code
selects the same clause and installs the same error as the spec's precedence
table (AlreadyForeignKind, IndexKind, declared PyTorchError subtype, then the
generic clauses); in particular a declared PyTorchError subtype is always
caught by the `PyTorchError` clause and mapped to its declared foreign type,
never translated by a generic clause. -/
theorem C2_selector_precedence (e : CppException) (s : InterpState) :
    firstMatch codeOrder e = firstMatch specOrder e ∧
    runCatch codeOrder e s = runCatch specOrder e s ∧
    ∀ te, e = .torch_py te →
      firstMatch codeOrder e = some .ctPyTorchError ∧
      (runCatch codeOrder e s).err = some (te.ptype, processErrorMsg te.msg) := by
  cases e <;> refine ⟨rfl, rfl, fun te h => ?_⟩ <;>
    first
    | (cases h; exact ⟨rfl, rfl⟩)
    | cases h

/-- Witness for C2 at a concrete declared PyTorchError subtype instance. -/
theorem C2_selector_precedence_witness :
    firstMatch codeOrder (.torch_py ⟨.PyExc_TypeError, "bad argument"⟩) =
      some .ctPyTorchError ∧
    (runCatch codeOrder (.torch_py ⟨.PyExc_TypeError, "bad argument"⟩)
        ⟨none⟩).err = some (.PyExc_TypeError, "bad argument") :=
  (C2_selector_precedence (.torch_py ⟨.PyExc_TypeError, "bad argument"⟩)
    ⟨none⟩).2.2 ⟨.PyExc_TypeError, "bad argument"⟩ rfl

/-- C3: destroying the warning buffer restores the previous handler and runs
exactly one replay branch: on a clean return (no error active) every buffered
warning is replayed in original FIFO order as a foreign warning call and the
first foreign error raised by a replay becomes the observable result; on an
active unwind no foreign calls are attempted and every buffered warning is
replayed as a native structured warning. In both branches the warnings
delivered are exactly the buffer — none is dropped. -/
theorem C3_warning_buffer_destructor (ph : Nat) (buf : List WarningRec)
    (ea : Bool) (raises : WarningRec → Option (PyExcType × String)) :
    (ewbDestruct ph buf ea raises).restoredHandler = ph ∧
    (ewbDestruct ph buf ea raises).foreignCalls ++
      (ewbDestruct ph buf ea raises).nativeWarnings = buf ∧
    (ea = true →
      (ewbDestruct ph buf ea raises).foreignCalls = [] ∧
      (ewbDestruct ph buf ea raises).nativeWarnings = buf ∧
      (ewbDestruct ph buf ea raises).raisedError = none) ∧
    (ea = false →
      (ewbDestruct ph buf ea raises).foreignCalls = buf ∧
      (ewbDestruct ph buf ea raises).nativeWarnings = [] ∧
      (ewbDestruct ph buf ea raises).raisedError =
        (buf.filterMap raises).head?) := by
  cases ea <;>
    simp [ewbDestruct, replayForeign_calls, replayForeign_err]

/-- Witness for C3: both branches at a concrete two-warning buffer, the clean
branch with a replay function that raises on the second warning. -/
theorem C3_warning_buffer_destructor_witness :
    ((ewbDestruct 7 [⟨"w1"⟩, ⟨"w2"⟩] true (fun _ => none)).foreignCalls = [] ∧
      (ewbDestruct 7 [⟨"w1"⟩, ⟨"w2"⟩] true
        (fun _ => none)).nativeWarnings = [⟨"w1"⟩, ⟨"w2"⟩] ∧
      (ewbDestruct 7 [⟨"w1"⟩, ⟨"w2"⟩] true (fun _ => none)).raisedError = none) ∧
    ((ewbDestruct 7 [⟨"w1"⟩, ⟨"w2"⟩] false
        (fun w => if w.msg = "w2" then
          some (.PyExc_RuntimeError, "escalated") else none)).foreignCalls =
        [⟨"w1"⟩, ⟨"w2"⟩] ∧
      (ewbDestruct 7 [⟨"w1"⟩, ⟨"w2"⟩] false
        (fun w => if w.msg = "w2" then
          some (.PyExc_RuntimeError, "escalated") else none)).nativeWarnings = [] ∧
      (ewbDestruct 7 [⟨"w1"⟩, ⟨"w2"⟩] false
        (fun w => if w.msg = "w2" then
          some (.PyExc_RuntimeError, "escalated") else none)).raisedError =
        (([⟨"w1"⟩, ⟨"w2"⟩] : List WarningRec).filterMap
          (fun w => if w.msg = "w2" then
            some (.PyExc_RuntimeError, "escalated") else none)).head?) :=
  ⟨(C3_warning_buffer_destructor 7 [⟨"w1"⟩, ⟨"w2"⟩] true (fun _ => none)).2.2.1 rfl,
   (C3_warning_buffer_destructor 7 [⟨"w1"⟩, ⟨"w2"⟩] false
      (fun w => if w.msg = "w2" then
        some (.PyExc_RuntimeError, "escalated") else none)).2.2.2 rfl⟩

/-- C4: `persist` is a no-op when the instance is already populated (first
capture wins — the second persist never overwrites the captured triple); on
an empty instance it fetches the interpreter's current triple into the
instance, clears the interpreter's error slot, and changes no refcount. -/
theorem C4_persist_first_capture (s : PyState) (e : python_error) :
    (e.type.isSome → python_error.persist s e = (s, e)) ∧
    (e = python_error.empty →
      (python_error.persist s e).2 =
        ⟨s.curexc_type, s.curexc_value, s.curexc_traceback⟩ ∧
      (python_error.persist s e).1.curexc_type = none ∧
      (python_error.persist s e).1.curexc_value = none ∧
      (python_error.persist s e).1.curexc_traceback = none ∧
      ∀ o, (python_error.persist s e).1.refcnt o = s.refcnt o) := by
  constructor
  · intro h
    simp [python_error.persist, h]
  · rintro rfl
    exact ⟨rfl, rfl, rfl, rfl, fun o => rfl⟩

/-- Witness for C4: a populated instance is untouched; an empty instance
captures the interpreter's concrete triple. -/
theorem C4_persist_first_capture_witness :
    python_error.persist ⟨fun _ => 3, some 1, some 2, some 3⟩ ⟨some 5, none, none⟩ =
      (⟨fun _ => 3, some 1, some 2, some 3⟩, ⟨some 5, none, none⟩) ∧
    (python_error.persist ⟨fun _ => 3, some 1, some 2, some 3⟩
        python_error.empty).2 = ⟨some 1, some 2, some 3⟩ :=
  ⟨(C4_persist_first_capture ⟨fun _ => 3, some 1, some 2, some 3⟩
      ⟨some 5, none, none⟩).1 rfl,
   ((C4_persist_first_capture ⟨fun _ => 3, some 1, some 2, some 3⟩
      python_error.empty).2 rfl).1⟩

/-- C5: `restore` is a no-op on an empty instance; on a populated instance it
increments the refcount of every held reference (once per handle, aliasing
counted) and installs the triple as the interpreter's active error through
the stealing install; the instance is only read, so a second restore installs
the same triple again and bumps the refcounts once more. -/
theorem C5_restore (s : PyState) (e : python_error) :
    (e.type = none → python_error.restore s e = s) ∧
    (e.type.isSome →
      (python_error.restore s e).curexc_type = e.type ∧
      (python_error.restore s e).curexc_value = e.value ∧
      (python_error.restore s e).curexc_traceback = e.traceback ∧
      (∀ o, (python_error.restore s e).refcnt o = s.refcnt o + e.refsTo o) ∧
      (python_error.restore (python_error.restore s e) e).curexc_type = e.type ∧
      ∀ o, (python_error.restore (python_error.restore s e) e).refcnt o =
        s.refcnt o + 2 * e.refsTo o) := by
  constructor
  · intro h
    simp [python_error.restore, h]
  · intro h
    have hre : ∀ t : PyState, (python_error.restore t e).curexc_type = e.type ∧
        (python_error.restore t e).curexc_value = e.value ∧
        (python_error.restore t e).curexc_traceback = e.traceback ∧
        ∀ o, (python_error.restore t e).refcnt o = t.refcnt o + e.refsTo o := by
      intro t
      refine ⟨?_, ?_, ?_, fun o => ?_⟩ <;>
        simp [python_error.restore, h, PyErr_Restore, Py_XINCREF_refcnt,
          python_error.refsTo, Nat.add_assoc]
    obtain ⟨h1, h2, h3, h4⟩ := hre s
    obtain ⟨g1, _, _, g4⟩ := hre (python_error.restore s e)
    refine ⟨h1, h2, h3, h4, g1, fun o => ?_⟩
    rw [g4 o, h4 o]
    omega

/-- Witness for C5: the no-op on an empty instance, and a populated instance
installed with its type handle's refcount bumped from 2 to 3. -/
theorem C5_restore_witness :
    python_error.restore ⟨fun _ => 2, none, none, none⟩ ⟨none, none, none⟩ =
      ⟨fun _ => 2, none, none, none⟩ ∧
    (python_error.restore ⟨fun _ => 2, none, none, none⟩
        ⟨some 3, some 4, none⟩).curexc_type = some 3 ∧
    (python_error.restore ⟨fun _ => 2, none, none, none⟩
        ⟨some 3, some 4, none⟩).refcnt 3 = 3 :=
  ⟨(C5_restore ⟨fun _ => 2, none, none, none⟩ ⟨none, none, none⟩).1 rfl,
   ((C5_restore ⟨fun _ => 2, none, none, none⟩ ⟨some 3, some 4, none⟩).2 rfl).1,
   by simpa using
     ((C5_restore ⟨fun _ => 2, none, none, none⟩ ⟨some 3, some 4, none⟩).2
       rfl).2.2.2.1 3⟩

/-- C6: move-construction transfers the three pointers to the destination and
nulls the source (its type carries no interpreter state: no lock, no refcount
touched), and destroying both instances afterwards — in either order — has
exactly the effect of a single destruction of the original, so each original
reference is released exactly once. -/
theorem C6_move_no_double_release (s : PyState) (a : python_error) :
    a.move.1 = a ∧
    a.move.2 = python_error.empty ∧
    python_error.destruct (python_error.destruct s a.move.2) a.move.1 =
      python_error.destruct s a ∧
    python_error.destruct (python_error.destruct s a.move.1) a.move.2 =
      python_error.destruct s a :=
  ⟨rfl, rfl, rfl, rfl⟩

/-- C7: a `JITException` crossing the pybind boundary is given only the
transient `RuntimeError "JITException"` sentinel (visible to the warning
reconciliation code in the intermediate state), the sentinel is cleared on
the way out, and the original signal object is rethrown with its payload
unmodified. -/
theorem C7_jit_sentinel (s : InterpState) (p : Nat) (m : String) :
    (pybindBoundary s (.jit_exception p m)).1.err =
      some (.PyExc_RuntimeError, "JITException") ∧
    (pybindBoundary s (.jit_exception p m)).2.1.err = none ∧
    (pybindBoundary s (.jit_exception p m)).2.2 =
      .rethrown (.jit_exception p m) :=
  ⟨rfl, rfl, rfl⟩

/-- C8: the kind-to-foreign-type round trip: `c10::IndexError` installs the
foreign IndexError; each declared subtype (torch::IndexError, TypeError,
ValueError) installs its declared `python_type` (PyExc_IndexError,
PyExc_TypeError, PyExc_ValueError respectively); `c10::Error` and any other
`std::exception` install the generic RuntimeError. -/
theorem C8_kind_roundtrip (s : InterpState) (m bt : String) (k : TorchErrorKind) :
    (runCatch codeOrder (.c10_index ⟨m, bt⟩) s).err =
      some (.PyExc_IndexError, m) ∧
    (runCatch codeOrder (.c10_error ⟨m, bt⟩) s).err =
      some (.PyExc_RuntimeError, m) ∧
    (runCatch codeOrder (.std_exc m) s).err =
      some (.PyExc_RuntimeError, m) ∧
    (runCatch codeOrder (.torch_py (k.toErr m)) s).err =
      some (k.python_type, m) ∧
    TorchErrorKind.torchIndexError.python_type = .PyExc_IndexError ∧
    TorchErrorKind.torchTypeError.python_type = .PyExc_TypeError ∧
    TorchErrorKind.torchValueError.python_type = .PyExc_ValueError := by
  refine ⟨rfl, rfl, rfl, ?_, rfl, rfl, rfl⟩
  cases k <;> rfl

/-- C9: a GenericKind (`c10::Error`) body error with message
"index 5 out of bounds" installs the generic RuntimeError whose message is
exactly that string — the clause renders via the backtrace-free accessor, so
no backtrace suffix appears regardless of the error's stored backtrace. -/
theorem C9_generic_message (s : InterpState) (bt : String) :
    runCatch codeOrder (.c10_error ⟨"index 5 out of bounds", bt⟩) s =
      ⟨some (.PyExc_RuntimeError, "index 5 out of bounds")⟩ :=
  rfl

/-- C10: `persist` keys "already populated" on the type handle alone: when
the type handle is null — even with leftover value/traceback handles — it
proceeds, releasing exactly those leftover references, then fetches the
interpreter's triple into the instance and clears the slot. -/
theorem C10_persist_type_guard (s : PyState) (e : python_error)
    (h : e.type = none) :
    (python_error.persist s e).2 =
      ⟨s.curexc_type, s.curexc_value, s.curexc_traceback⟩ ∧
    (python_error.persist s e).1.curexc_type = none ∧
    (python_error.persist s e).1.curexc_value = none ∧
    (python_error.persist s e).1.curexc_traceback = none ∧
    ∀ o, (python_error.persist s e).1.refcnt o =
      s.refcnt o - ((if e.value = some o then 1 else 0) +
        (if e.traceback = some o then 1 else 0)) := by
  obtain ⟨t, v, tb⟩ := e
  subst h
  refine ⟨?_, ?_, ?_, ?_, fun o => ?_⟩ <;>
    simp [python_error.persist, PyErr_Fetch, Py_XDECREF_refcnt,
      Py_XDECREF_curexc_type, Py_XDECREF_curexc_value,
      Py_XDECREF_curexc_traceback, Nat.sub_sub]

/-- Witness for C10: a type-null instance with leftover aliased value and
traceback handles captures the interpreter's triple and releases both
leftover references (refcount 4 drops to 2). -/
theorem C10_persist_type_guard_witness :
    (python_error.persist ⟨fun _ => 4, some 1, some 2, none⟩
        ⟨none, some 9, some 9⟩).2 = ⟨some 1, some 2, none⟩ ∧
    (python_error.persist ⟨fun _ => 4, some 1, some 2, none⟩
        ⟨none, some 9, some 9⟩).1.refcnt 9 = 2 :=
  ⟨(C10_persist_type_guard ⟨fun _ => 4, some 1, some 2, none⟩
      ⟨none, some 9, some 9⟩ rfl).1,
   by simpa using
     (C10_persist_type_guard ⟨fun _ => 4, some 1, some 2, none⟩
       ⟨none, some 9, some 9⟩ rfl).2.2.2.2 9⟩
